import Mathlib

/-!
Verification of the wmkd water-turret controller.

Shallow embedding of `final_turret_controller.py` and the telemetry decoder
of `raspberry_pi_receiver.py`.  Wall-clock times and the float `distance`
are modelled as rationals; the serial device is modelled as a response
oracle `resp : String → String` (the line the device echoes back for a
given command; the empty string stands for "not connected / read failed",
exactly the value `send_command` returns in those cases).  Every outbound
write to the serial link is recorded as an `Event`.
-/

/-- Python substring-prefix test on character lists (`str.startswith`). -/
def charsLeading : List Char → List Char → Bool
  | [], _ => true
  | _ :: _, [] => false
  | a :: p, b :: l => a == b && charsLeading p l

/-- Python substring containment on character lists (the `in` operator). -/
def charsWithin (p : List Char) : List Char → Bool
  | [] => p.isEmpty
  | b :: l => charsLeading p (b :: l) || charsWithin p l

/-- Python `pat in s` for strings. -/
def strContains (s pat : String) : Bool :=
  charsWithin pat.data s.data

/-- A Python/JSON value as produced by `json.loads`. -/
inductive PyJson where
  | null
  | bool (b : Bool)
  | num (q : ℚ)
  | str (s : String)
  | arr (elems : List PyJson)
  | obj (fields : List (String × PyJson))

/-- The two exception classes that can arise from subscripting the decoded
JSON value with a string key: `KeyError` (dict without that key) and
`TypeError` (value is not a dict). -/
inductive PyErr where
  | keyError
  | typeError
deriving DecidableEq

/-- Python `data[key]` for a string key on a decoded JSON value: a dict
yields the entry or raises `KeyError`; every non-dict value raises
`TypeError`. -/
def PyJson.subscript : PyJson → String → Except PyErr PyJson
  | .obj kvs, k =>
    match kvs.lookup k with
    | some v => .ok v
    | none => .error PyErr.keyError
  | _, _ => .error PyErr.typeError

/-- The `SensorReading` dataclass as populated by `parse_data_line`: the
six fields are taken from the JSON record without any type coercion, plus
the decode-time stamp `received_at`. -/
structure RawReading where
  timestamp : PyJson
  distance : PyJson
  sound_level : PyJson
  sound_raw : PyJson
  sound_detected : PyJson
  proximity_alert : PyJson
  received_at : ℚ

/-- Extraction of the six required fields in the evaluation order of the
`SensorReading(...)` constructor call; the first failing subscript
determines the raised exception. -/
def fieldsOf (data : PyJson) (now : ℚ) : Except PyErr RawReading :=
  match data.subscript "timestamp" with
  | .error e => .error e
  | .ok t =>
    match data.subscript "distance" with
    | .error e => .error e
    | .ok d =>
      match data.subscript "sound_level" with
      | .error e => .error e
      | .ok sl =>
        match data.subscript "sound_raw" with
        | .error e => .error e
        | .ok sr =>
          match data.subscript "sound_detected" with
          | .error e => .error e
          | .ok sd =>
            match data.subscript "proximity_alert" with
            | .error e => .error e
            | .ok pa => .ok ⟨t, d, sl, sr, sd, pa, now⟩

/-- `ArduinoSensorReceiver.parse_data_line`.  `parsed` is the outcome of
`json.loads(line[5:])` (`none` = `json.JSONDecodeError`); `now` is
`datetime.now()`.  The `try` block catches exactly `JSONDecodeError` and
`KeyError` (returning `None`); a `TypeError` escapes as `.error`. -/
def parse_data_line (line : String) (parsed : Option PyJson) (now : ℚ) :
    Except PyErr (Option RawReading) :=
  if charsLeading "DATA:".data line.data then
    match parsed with
    | none => .ok none
    | some data =>
      match fieldsOf data now with
      | .ok r => .ok (some r)
      | .error PyErr.keyError => .ok none
      | .error PyErr.typeError => .error PyErr.typeError
  else .ok none

/-- A well-typed sensor reading, as consumed by the tracking controller. -/
structure SensorReading where
  timestamp : Int
  distance : ℚ
  sound_level : Int
  sound_raw : Int
  sound_detected : Bool
  proximity_alert : Bool
  received_at : ℚ

/-- State of `CyberBrickMicroPythonInterface` (the serial handle itself is
abstracted into the response oracle). -/
structure CyberBrick where
  is_connected : Bool
  auto_mode : Bool
deriving DecidableEq

/-- `CyberBrickMicroPythonInterface.__init__`. -/
def CyberBrick.init : CyberBrick := ⟨false, false⟩

/-- Observable effects on the actuator link: a command line written out,
or a `time.sleep` dwell. -/
inductive Event where
  | cmd (s : String)
  | sleep (d : ℚ)
deriving DecidableEq

/-- `send_command`: returns the device response (or `""` when not
connected), together with the write trace. -/
def send_command (cb : CyberBrick) (resp : String → String) (c : String) :
    String × List Event :=
  if cb.is_connected then (resp c, [Event.cmd c]) else ("", [])

/-- `move_turret`: gated on auto mode, builds `MOVE:PWM…` from the
supplied channels and requires an `OK` in the response. -/
def move_turret (cb : CyberBrick) (resp : String → String)
    (pwm1 pwm2 pwm3 : Option Int) : Bool × List Event :=
  if cb.auto_mode = false then (false, [])
  else
    let params :=
      (match pwm1 with | some v => ["PWM1=" ++ toString v] | none => []) ++
      (match pwm2 with | some v => ["PWM2=" ++ toString v] | none => []) ++
      (match pwm3 with | some v => ["PWM3=" ++ toString v] | none => [])
    if params.isEmpty then (false, [])
    else
      let c := "MOVE:" ++ String.intercalate "," params
      let r := send_command cb resp c
      (strContains r.1 "OK", r.2)

/-- `fire_water`: engage (`PWM3=0`), dwell, rest (`PWM3=20`); the second
send only happens when the first is acknowledged. -/
def fire_water (cb : CyberBrick) (resp : String → String) (duration : ℚ) :
    Bool × List Event :=
  if cb.auto_mode = false then (false, [])
  else
    let m1 := move_turret cb resp none none (some 0)
    if m1.1 then
      let m2 := move_turret cb resp none none (some 20)
      (m2.1, m1.2 ++ [Event.sleep duration] ++ m2.2)
    else (false, m1.2)

/-- `enable_auto_mode`: flips the local mirror only on an `AUTO_OK`
acknowledgement. -/
def enable_auto_mode (cb : CyberBrick) (resp : String → String) :
    Bool × CyberBrick × List Event :=
  let r := send_command cb resp "MODE:AUTO"
  if strContains r.1 "AUTO_OK" then (true, { cb with auto_mode := true }, r.2)
  else (false, cb, r.2)

/-- `enable_manual_mode`: flips the local mirror only on a `MANUAL_OK`
acknowledgement. -/
def enable_manual_mode (cb : CyberBrick) (resp : String → String) :
    Bool × CyberBrick × List Event :=
  let r := send_command cb resp "MODE:MANUAL"
  if strContains r.1 "MANUAL_OK" then (true, { cb with auto_mode := false }, r.2)
  else (false, cb, r.2)

/-- The distance-to-tilt mapping of `auto_track_and_fire` (the local
`target_tilt` computation, lines 194–199). -/
def target_tilt (d : ℚ) : Int :=
  if d < 20 then 80
  else if d < 50 then 90
  else 100

/-- State of `FinalWaterTurretController`: interface plus tracking state. -/
structure Controller where
  cb : CyberBrick
  current_tilt : Int
  target_detected : Bool
  last_fire_time : ℚ
deriving DecidableEq

/-- `fire_cooldown` (seconds). -/
def fire_cooldown : ℚ := 2

/-- `FinalWaterTurretController.__init__`: centered tilt, no target,
cooldown satisfied at the first opportunity. -/
def Controller.init : Controller := ⟨CyberBrick.init, 90, false, 0⟩

/-- `auto_track_and_fire(reading)` at wall-clock time `now`: returns the
updated controller state and the trace of actuator events. -/
def auto_track_and_fire (c : Controller) (r : SensorReading) (now : ℚ)
    (resp : String → String) : Controller × List Event :=
  if c.cb.auto_mode = false then (c, [])
  else if r.distance > 0 ∧ r.distance < 100 then
    let c1 := { c with target_detected := true }
    let tt := target_tilt r.distance
    let s1 :=
      if 3 < |c1.current_tilt - tt| then
        let step : Int := if tt > c1.current_tilt then 3 else -3
        let t := max 70 (min 110 (c1.current_tilt + step))
        let m := move_turret c1.cb resp none (some t) none
        ({ c1 with current_tilt := t }, m.2)
      else (c1, ([] : List Event))
    if r.sound_detected && r.proximity_alert then
      if now - s1.1.last_fire_time > fire_cooldown then
        let f := fire_water s1.1.cb resp (1/2)
        ({ s1.1 with last_fire_time := now }, s1.2 ++ f.2)
      else s1
    else s1
  else
    let c1 := { c with target_detected := false }
    if c1.current_tilt ≠ 90 then
      let m := move_turret c1.cb resp none (some 90) none
      ({ c1 with current_tilt := 90 }, m.2)
    else (c1, [])

/-- One step of the controller process: a successful `connect`, a mode
toggle request, or one sensor reading fed to `auto_track_and_fire`. -/
inductive CtrlAct where
  | connect
  | modeAuto (resp : String → String)
  | modeManual (resp : String → String)
  | tick (r : SensorReading) (now : ℚ) (resp : String → String)

/-- Effect of a single `CtrlAct` on the controller state. -/
def runAction (c : Controller) : CtrlAct → Controller × List Event
  | .connect => ({ c with cb := { c.cb with is_connected := true } }, [])
  | .modeAuto resp =>
    let e := enable_auto_mode c.cb resp
    ({ c with cb := e.2.1 }, e.2.2)
  | .modeManual resp =>
    let e := enable_manual_mode c.cb resp
    ({ c with cb := e.2.1 }, e.2.2)
  | .tick r now resp => auto_track_and_fire c r now resp

/-- A whole run: fold of `runAction`, accumulating the event trace. -/
def runActions (c : Controller) : List CtrlAct → Controller × List Event
  | [] => (c, [])
  | a :: rest =>
    let s := runAction c a
    let s' := runActions s.1 rest
    (s'.1, s.2 ++ s'.2)

/-- The wall-clock times at which a run starts a fire pulse, read off the
observable `last_fire_time` changes (the fire branch is the only writer of
that field, and it writes the current time). -/
def fireTimes (c : Controller) : List CtrlAct → List ℚ
  | [] => []
  | a :: rest =>
    let c' := (runAction c a).1
    (if c'.last_fire_time ≠ c.last_fire_time then [c'.last_fire_time] else []) ++
      fireTimes c' rest

/-- The reachable-tilt invariant: every tilt the tracking controller can
hold is a multiple of 3 inside `[81, 99]`. -/
def tiltInv (c : Controller) : Prop :=
  81 ≤ c.current_tilt ∧ c.current_tilt ≤ 99 ∧ (3 : Int) ∣ c.current_tilt

/-! ### Helper lemmas -/

/-- Unfolding of `auto_track_and_fire` into its four top-level branches,
with the intermediate record updates flattened. -/
theorem tick_unfold (c : Controller) (r : SensorReading) (now : ℚ)
    (resp : String → String) :
    auto_track_and_fire c r now resp =
      if c.cb.auto_mode = false then (c, [])
      else if r.distance > 0 ∧ r.distance < 100 then
        let tt := target_tilt r.distance
        let t := max 70 (min 110 (c.current_tilt + (if tt > c.current_tilt then 3 else -3)))
        let c2 : Controller :=
          if 3 < |c.current_tilt - tt| then
            { c with target_detected := true, current_tilt := t }
          else { c with target_detected := true }
        let tr1 : List Event :=
          if 3 < |c.current_tilt - tt| then (move_turret c.cb resp none (some t) none).2
          else []
        if r.sound_detected && r.proximity_alert then
          if now - c.last_fire_time > fire_cooldown then
            ({ c2 with last_fire_time := now }, tr1 ++ (fire_water c.cb resp (1/2)).2)
          else (c2, tr1)
        else (c2, tr1)
      else if c.current_tilt ≠ 90 then
        ({ c with target_detected := false, current_tilt := 90 },
         (move_turret c.cb resp none (some 90) none).2)
      else ({ c with target_detected := false }, []) := by
  by_cases hA : c.cb.auto_mode = false
  · simp [auto_track_and_fire, hA]
  · by_cases hD : r.distance > 0 ∧ r.distance < 100
    · by_cases hM : 3 < |c.current_tilt - target_tilt r.distance|
      · simp [auto_track_and_fire, hA, hD, hM]
      · simp [auto_track_and_fire, hA, hD, hM]
    · by_cases hT : c.current_tilt = 90
      · simp [auto_track_and_fire, hA, hD, hT]
      · simp [auto_track_and_fire, hA, hD, hT]

/-- Any command built as `MOVE:PWM2=…` differs from a string whose ninth
character is not `2`. -/
theorem pwm2_cmd_ne (x t : String) (h8 : t.data.getD 8 '#' ≠ '2') :
    "MOVE:PWM2=" ++ x ≠ t := by
  intro h
  apply h8
  rw [← h, String.data_append]
  rfl

/-- A tilt-only `move_turret` call in connected AUTO mode sends exactly
one `MOVE:PWM2=…` line. -/
theorem move_turret_pwm2 (cb : CyberBrick) (resp : String → String) (t : Int)
    (h_auto : cb.auto_mode = true) (h_conn : cb.is_connected = true) :
    move_turret cb resp none (some t) none =
      (strContains (resp ("MOVE:PWM2=" ++ toString t)) "OK",
       [Event.cmd ("MOVE:PWM2=" ++ toString t)]) := by
  have hc : "MOVE:" ++ String.intercalate "," ["PWM2=" ++ toString t] =
      "MOVE:PWM2=" ++ toString t := by
    show "MOVE:" ++ ("PWM2=" ++ toString t) = "MOVE:PWM2=" ++ toString t
    rw [← String.append_assoc]
    rfl
  simp [move_turret, send_command, h_auto, h_conn, hc]

/-- A fire-channel `move_turret` call in connected AUTO mode sends exactly
one `MOVE:PWM3=…` line. -/
theorem move_turret_pwm3 (cb : CyberBrick) (resp : String → String) (v : Int)
    (h_auto : cb.auto_mode = true) (h_conn : cb.is_connected = true) :
    move_turret cb resp none none (some v) =
      (strContains (resp ("MOVE:PWM3=" ++ toString v)) "OK",
       [Event.cmd ("MOVE:PWM3=" ++ toString v)]) := by
  have hc : "MOVE:" ++ String.intercalate "," ["PWM3=" ++ toString v] =
      "MOVE:PWM3=" ++ toString v := by
    show "MOVE:" ++ ("PWM3=" ++ toString v) = "MOVE:PWM3=" ++ toString v
    rw [← String.append_assoc]
    rfl
  simp [move_turret, send_command, h_auto, h_conn, hc]

/-- Closed form of `fire_water` in connected AUTO mode. -/
theorem fire_water_eq (cb : CyberBrick) (resp : String → String) (dur : ℚ)
    (h_auto : cb.auto_mode = true) (h_conn : cb.is_connected = true) :
    fire_water cb resp dur =
      if strContains (resp "MOVE:PWM3=0") "OK" then
        (strContains (resp "MOVE:PWM3=20") "OK",
         [Event.cmd "MOVE:PWM3=0", Event.sleep dur, Event.cmd "MOVE:PWM3=20"])
      else (false, [Event.cmd "MOVE:PWM3=0"]) := by
  have h0 : "MOVE:PWM3=" ++ toString (0 : Int) = "MOVE:PWM3=0" := rfl
  have h20 : "MOVE:PWM3=" ++ toString (20 : Int) = "MOVE:PWM3=20" := rfl
  simp [fire_water, move_turret_pwm3 cb resp _ h_auto h_conn, h_auto, h0, h20]

/-- The aim mapping only ever produces the three band values. -/
theorem target_tilt_cases (d : ℚ) :
    target_tilt d = 80 ∨ target_tilt d = 90 ∨ target_tilt d = 100 := by
  unfold target_tilt
  split
  · exact Or.inl rfl
  split
  · exact Or.inr (Or.inl rfl)
  · exact Or.inr (Or.inr rfl)

/-- The `[70,110]` clamp is the identity on values already inside. -/
theorem clamp_id (x : Int) (h1 : 70 ≤ x) (h2 : x ≤ 110) :
    max 70 (min 110 x) = x := by
  rw [min_eq_right h2, max_eq_right h1]

/-! ### Claims -/

/-- C4: whenever the mode is MANUAL, processing a reading is a no-op: the
tracking state (`current_tilt`, `target_detected`, `last_fire_time`) is
unchanged and no outbound command is produced; `move_turret` and
`fire_water` return `false` immediately without writing anything to the
actuator link. -/
theorem c4_manual_noop (c : Controller) (r : SensorReading) (now : ℚ)
    (resp resp2 resp3 : String → String) (cb : CyberBrick)
    (p1 p2 p3 : Option Int) (d : ℚ)
    (h1 : c.cb.auto_mode = false) (h2 : cb.auto_mode = false) :
    auto_track_and_fire c r now resp = (c, []) ∧
    move_turret cb resp2 p1 p2 p3 = (false, []) ∧
    fire_water cb resp3 d = (false, []) := by
  refine ⟨?_, ?_, ?_⟩
  · simp [auto_track_and_fire, h1]
  · simp [move_turret, h2]
  · simp [fire_water, h2]

/-- C4 witness: a MANUAL-mode tick and the gated actuator calls at
concrete inputs. -/
theorem c4_manual_noop_w :
    auto_track_and_fire ⟨⟨true, false⟩, 90, false, 0⟩
        ⟨1, 15, 50, 500, true, true, 0⟩ 10 (fun _ => "OK") =
      (⟨⟨true, false⟩, 90, false, 0⟩, []) ∧
    move_turret ⟨true, false⟩ (fun _ => "OK") none (some 90) none = (false, []) ∧
    fire_water ⟨true, false⟩ (fun _ => "OK") (1/2) = (false, []) :=
  c4_manual_noop ⟨⟨true, false⟩, 90, false, 0⟩ ⟨1, 15, 50, 500, true, true, 0⟩
    10 (fun _ => "OK") (fun _ => "OK") (fun _ => "OK") ⟨true, false⟩
    none (some 90) none (1/2) rfl rfl

/-- C7: in connected AUTO mode, the fire sequence sends `MOVE:PWM3=0`,
dwells, then sends `MOVE:PWM3=20`; it returns `true` iff both sends are
acknowledged (response contains `OK`), and if the first send is not
acknowledged the second command is never sent and it returns `false`. -/
theorem c7_fire_sequence (cb : CyberBrick) (resp : String → String) (dur : ℚ)
    (h_auto : cb.auto_mode = true) (h_conn : cb.is_connected = true) :
    (strContains (resp "MOVE:PWM3=0") "OK" = true →
      fire_water cb resp dur =
        (strContains (resp "MOVE:PWM3=20") "OK",
         [Event.cmd "MOVE:PWM3=0", Event.sleep dur, Event.cmd "MOVE:PWM3=20"])) ∧
    (strContains (resp "MOVE:PWM3=0") "OK" = false →
      fire_water cb resp dur = (false, [Event.cmd "MOVE:PWM3=0"])) ∧
    ((fire_water cb resp dur).1 = true ↔
      strContains (resp "MOVE:PWM3=0") "OK" = true ∧
      strContains (resp "MOVE:PWM3=20") "OK" = true) := by
  rw [fire_water_eq cb resp dur h_auto h_conn]
  refine ⟨fun h => by simp [h], fun h => by simp [h], ?_⟩
  by_cases h : strContains (resp "MOVE:PWM3=0") "OK" = true
  · simp [h]
  · simp [h]

/-- C7 witness: an unacknowledged first send aborts the sequence. -/
theorem c7_fire_sequence_w :
    fire_water ⟨true, true⟩ (fun _ => "ERR") (1/2) =
      (false, [Event.cmd "MOVE:PWM3=0"]) :=
  (c7_fire_sequence ⟨true, true⟩ (fun _ => "ERR") (1/2) rfl rfl).2.1 rfl

/-- C8: the local mode mirror starts as MANUAL; a `MODE:AUTO` request
flips it to AUTO exactly on a response containing `AUTO_OK`, a
`MODE:MANUAL` request flips it to MANUAL exactly on a response containing
`MANUAL_OK`; any other response leaves the mirror unchanged and the call
returns `false`. -/
theorem c8_mode_mirror (cb : CyberBrick) (resp : String → String) :
    CyberBrick.init.auto_mode = false ∧
    (strContains (send_command cb resp "MODE:AUTO").1 "AUTO_OK" = true →
      enable_auto_mode cb resp =
        (true, { cb with auto_mode := true }, (send_command cb resp "MODE:AUTO").2)) ∧
    (strContains (send_command cb resp "MODE:AUTO").1 "AUTO_OK" = false →
      (enable_auto_mode cb resp).1 = false ∧
      (enable_auto_mode cb resp).2.1 = cb) ∧
    (strContains (send_command cb resp "MODE:MANUAL").1 "MANUAL_OK" = true →
      enable_manual_mode cb resp =
        (true, { cb with auto_mode := false }, (send_command cb resp "MODE:MANUAL").2)) ∧
    (strContains (send_command cb resp "MODE:MANUAL").1 "MANUAL_OK" = false →
      (enable_manual_mode cb resp).1 = false ∧
      (enable_manual_mode cb resp).2.1 = cb) := by
  refine ⟨rfl, fun h => ?_, fun h => ?_, fun h => ?_, fun h => ?_⟩
  · simp [enable_auto_mode, h]
  · simp [enable_auto_mode, h]
  · simp [enable_manual_mode, h]
  · simp [enable_manual_mode, h]

/-- C8 witness: an acknowledged `MODE:AUTO` request flips the mirror. -/
theorem c8_mode_mirror_w :
    enable_auto_mode ⟨true, false⟩ (fun _ => "AUTO_OK") =
      (true, { is_connected := true, auto_mode := true },
       (send_command ⟨true, false⟩ (fun _ => "AUTO_OK") "MODE:AUTO").2) :=
  (c8_mode_mirror ⟨true, false⟩ (fun _ => "AUTO_OK")).2.1 rfl

/-- C9: no actuator-command failure changes tracking state: the state the
tick produces is independent of the device responses, so any failed or
unacknowledged command leaves `current_tilt`, `target_detected` and
`last_fire_time` exactly as a successful run would. -/
theorem c9_response_independent (c : Controller) (r : SensorReading) (now : ℚ)
    (resp1 resp2 : String → String) :
    (auto_track_and_fire c r now resp1).1 = (auto_track_and_fire c r now resp2).1 := by
  rw [tick_unfold, tick_unfold]
  by_cases hA : c.cb.auto_mode = false
  · simp [hA]
  · by_cases hD : r.distance > 0 ∧ r.distance < 100
    · by_cases hM : 3 < |c.current_tilt - target_tilt r.distance| <;>
        by_cases hS : (r.sound_detected && r.proximity_alert) = true <;>
          by_cases hF : now - c.last_fire_time > fire_cooldown <;>
            simp [hA, hD, hM, hS, hF]
    · by_cases hT : c.current_tilt = 90 <;> simp [hA, hD, hT]

/-- C2: in connected AUTO mode a target is detected iff
`0 < distance < 100`; the target tilt is `80` below 20 cm, `90` from 20 to
50 cm and `100` from 50 to 100 cm; with no target, exactly one recentering
`MOVE:PWM2=90` command is emitted iff the tilt is off-center, and the tilt
becomes 90. -/
theorem c2_bands_and_recenter (c : Controller) (r : SensorReading) (now : ℚ)
    (resp : String → String)
    (h_auto : c.cb.auto_mode = true) (h_conn : c.cb.is_connected = true) :
    ((auto_track_and_fire c r now resp).1.target_detected = true ↔
      (0 < r.distance ∧ r.distance < 100)) ∧
    (r.distance < 20 → target_tilt r.distance = 80) ∧
    (20 ≤ r.distance → r.distance < 50 → target_tilt r.distance = 90) ∧
    (50 ≤ r.distance → r.distance < 100 → target_tilt r.distance = 100) ∧
    (¬(0 < r.distance ∧ r.distance < 100) →
      (c.current_tilt ≠ 90 →
        (auto_track_and_fire c r now resp).1 =
          { c with target_detected := false, current_tilt := 90 } ∧
        (auto_track_and_fire c r now resp).2 = [Event.cmd "MOVE:PWM2=90"]) ∧
      (c.current_tilt = 90 →
        (auto_track_and_fire c r now resp).1 = { c with target_detected := false } ∧
        (auto_track_and_fire c r now resp).2 = [])) := by
  have h90 : "MOVE:PWM2=" ++ toString (90 : Int) = "MOVE:PWM2=90" := rfl
  refine ⟨?_, ?_, ?_, ?_, ?_⟩
  · rw [tick_unfold]
    by_cases hD : r.distance > 0 ∧ r.distance < 100
    · by_cases hM : 3 < |c.current_tilt - target_tilt r.distance| <;>
        by_cases hS : (r.sound_detected && r.proximity_alert) = true <;>
          by_cases hF : now - c.last_fire_time > fire_cooldown <;>
            simp [h_auto, hD, hM, hS, hF]
    · by_cases hT : c.current_tilt = 90 <;> simp [h_auto, hD, hT]
  · intro h
    simp [target_tilt, h]
  · intro h1 h2
    simp [target_tilt, not_lt.2 h1, h2]
  · intro h1 _
    have g1 : ¬r.distance < 20 := not_lt.2 (by linarith)
    have g2 : ¬r.distance < 50 := not_lt.2 h1
    simp [target_tilt, g1, g2]
  · intro hD
    refine ⟨fun hT => ?_, fun hT => ?_⟩
    · rw [tick_unfold]
      simp [h_auto, hD, hT, move_turret_pwm2 c.cb resp 90 h_auto h_conn, h90]
    · rw [tick_unfold]
      simp [h_auto, hD, hT]

/-- C2 witness: no-target reading with off-center tilt recenters with a
single `MOVE:PWM2=90` command. -/
theorem c2_bands_and_recenter_w :
    (auto_track_and_fire ⟨⟨true, true⟩, 100, true, 0⟩
        ⟨1, 150, 0, 0, false, false, 0⟩ 5 (fun _ => "OK")).1 =
      { cb := ⟨true, true⟩, current_tilt := 90, target_detected := false,
        last_fire_time := 0 } ∧
    (auto_track_and_fire ⟨⟨true, true⟩, 100, true, 0⟩
        ⟨1, 150, 0, 0, false, false, 0⟩ 5 (fun _ => "OK")).2 =
      [Event.cmd "MOVE:PWM2=90"] :=
  (((c2_bands_and_recenter ⟨⟨true, true⟩, 100, true, 0⟩
      ⟨1, 150, 0, 0, false, false, 0⟩ 5 (fun _ => "OK") rfl rfl).2.2.2.2
    (by norm_num)).1 (by norm_num))


/-- No command of the fire sequence is an aim (`MOVE:PWM2=…`) command. -/
theorem fire_trace_no_aim (cb : CyberBrick) (resp : String → String) (dur : ℚ)
    (h_auto : cb.auto_mode = true) (h_conn : cb.is_connected = true) :
    ∀ s : String, Event.cmd s ∈ (fire_water cb resp dur).2 →
      ¬∃ u : String, s = "MOVE:PWM2=" ++ u := by
  rw [fire_water_eq cb resp dur h_auto h_conn]
  intro s hs hex
  obtain ⟨u, hu⟩ := hex
  by_cases hOK : strContains (resp "MOVE:PWM3=0") "OK" = true
  · rw [if_pos hOK] at hs
    simp only [List.mem_cons, List.not_mem_nil, or_false] at hs
    rcases hs with h | h | h
    · exact pwm2_cmd_ne u "MOVE:PWM3=0" (by decide)
        (hu.symm.trans (by injection h))
    · exact Event.noConfusion h
    · exact pwm2_cmd_ne u "MOVE:PWM3=20" (by decide)
        (hu.symm.trans (by injection h))
  · rw [if_neg hOK] at hs
    simp only [List.mem_cons, List.not_mem_nil, or_false] at hs
    exact pwm2_cmd_ne u "MOVE:PWM3=0" (by decide)
      (hu.symm.trans (by injection hs))

/-- C3: in connected AUTO mode with a target detected, an aim command is
emitted iff `|current_tilt - target_tilt| > 3`, in which case the tilt
moves by exactly 3 degrees toward the target, is clamped to `[70,110]`,
and the resulting value is sent as the commanded tilt (the first event of
the tick); otherwise no aim (`MOVE:PWM2=…`) command is issued and the tilt
is unchanged. -/
theorem c3_smoothing (c : Controller) (r : SensorReading) (now : ℚ)
    (resp : String → String)
    (h_auto : c.cb.auto_mode = true) (h_conn : c.cb.is_connected = true)
    (h_det : r.distance > 0 ∧ r.distance < 100) :
    (3 < |c.current_tilt - target_tilt r.distance| →
      (auto_track_and_fire c r now resp).1.current_tilt =
        max 70 (min 110 (c.current_tilt +
          (if target_tilt r.distance > c.current_tilt then 3 else -3))) ∧
      (auto_track_and_fire c r now resp).2.head? =
        some (Event.cmd ("MOVE:PWM2=" ++
          toString (max 70 (min 110 (c.current_tilt +
            (if target_tilt r.distance > c.current_tilt then 3 else -3))))))) ∧
    (¬3 < |c.current_tilt - target_tilt r.distance| →
      (auto_track_and_fire c r now resp).1.current_tilt = c.current_tilt ∧
      ∀ s : String, Event.cmd s ∈ (auto_track_and_fire c r now resp).2 →
        ¬∃ u : String, s = "MOVE:PWM2=" ++ u) := by
  rw [tick_unfold]
  constructor
  · intro hM
    by_cases hS : (r.sound_detected && r.proximity_alert) = true <;>
      by_cases hF : now - c.last_fire_time > fire_cooldown <;>
        simp [h_auto, h_det, hM, hS, hF,
          move_turret_pwm2 c.cb resp _ h_auto h_conn]
  · intro hM
    have htrace := fire_trace_no_aim c.cb resp (2⁻¹ : ℚ) h_auto h_conn
    by_cases hS : (r.sound_detected && r.proximity_alert) = true <;>
      by_cases hF : now - c.last_fire_time > fire_cooldown <;>
        simp [h_auto, h_det, hM, hS, hF] <;>
          exact fun s hs x hx => htrace s hs ⟨x, hx⟩

/-- C3 witness: distance 15 cm with centered tilt steps down by 3 and
sends the stepped tilt. -/
theorem c3_smoothing_w :
    (auto_track_and_fire ⟨⟨true, true⟩, 90, false, 0⟩
        ⟨1, 15, 0, 0, false, false, 0⟩ 5 (fun _ => "OK")).1.current_tilt =
      max 70 (min 110 ((90 : Int) +
        (if target_tilt 15 > (90 : Int) then 3 else -3))) ∧
    (auto_track_and_fire ⟨⟨true, true⟩, 90, false, 0⟩
        ⟨1, 15, 0, 0, false, false, 0⟩ 5 (fun _ => "OK")).2.head? =
      some (Event.cmd ("MOVE:PWM2=" ++
        toString (max 70 (min 110 ((90 : Int) +
          (if target_tilt 15 > (90 : Int) then 3 else -3)))))) :=
  (c3_smoothing ⟨⟨true, true⟩, 90, false, 0⟩ ⟨1, 15, 0, 0, false, false, 0⟩
    5 (fun _ => "OK") rfl rfl (by norm_num)).1 (by norm_num [target_tilt])

/-- A tick either leaves `last_fire_time` unchanged or sets it to the
current time with the cooldown strictly elapsed. -/
theorem tick_lft (c : Controller) (r : SensorReading) (now : ℚ)
    (resp : String → String) :
    (auto_track_and_fire c r now resp).1.last_fire_time = c.last_fire_time ∨
    ((auto_track_and_fire c r now resp).1.last_fire_time = now ∧
      now - c.last_fire_time > fire_cooldown) := by
  rw [tick_unfold]
  by_cases hA : c.cb.auto_mode = false
  · simp [hA]
  by_cases hD : r.distance > 0 ∧ r.distance < 100
  · by_cases hM : 3 < |c.current_tilt - target_tilt r.distance| <;>
      by_cases hS : (r.sound_detected && r.proximity_alert) = true <;>
        by_cases hF : now - c.last_fire_time > fire_cooldown <;>
          simp [hA, hD, hM, hS, hF]
  · by_cases hT : c.current_tilt = 90 <;> simp [hA, hD, hT]

/-- A single action either preserves `last_fire_time` or advances it by
more than the cooldown. -/
theorem runAction_lft (c : Controller) (a : CtrlAct) :
    (runAction c a).1.last_fire_time = c.last_fire_time ∨
    (runAction c a).1.last_fire_time - c.last_fire_time > fire_cooldown := by
  cases a with
  | connect => exact Or.inl rfl
  | modeAuto resp =>
      left
      simp only [runAction]
  | modeManual resp =>
      left
      simp only [runAction]
  | tick r now resp =>
      rcases tick_lft c r now resp with h | ⟨h1, h2⟩
      · exact Or.inl h
      · right
        show (auto_track_and_fire c r now resp).1.last_fire_time -
          c.last_fire_time > fire_cooldown
        rw [h1]
        exact h2

/-- Every fire time of a run exceeds the starting `last_fire_time` by
more than the cooldown. -/
theorem fireTimes_gt : ∀ (l : List CtrlAct) (c : Controller) (t : ℚ),
    t ∈ fireTimes c l → t - c.last_fire_time > fire_cooldown := by
  intro l
  induction l with
  | nil => intro c t ht; simp [fireTimes] at ht
  | cons a rest ih =>
      intro c t ht
      have hpos : (0 : ℚ) < fire_cooldown := by norm_num [fire_cooldown]
      simp only [fireTimes] at ht
      by_cases hne : (runAction c a).1.last_fire_time ≠ c.last_fire_time
      · rw [if_pos hne] at ht
        rcases List.mem_append.1 ht with h | h
        · rcases runAction_lft c a with he | hgt
          · exact absurd he hne
          · rw [List.mem_singleton] at h
            rw [h]
            exact hgt
        · have h1 := ih (runAction c a).1 t h
          rcases runAction_lft c a with he | hgt
          · exact absurd he hne
          · linarith
      · rw [if_neg hne] at ht
        rw [List.nil_append] at ht
        have h1 := ih (runAction c a).1 t ht
        rw [not_not] at hne
        rw [hne] at h1
        exact h1

/-- The fire times of any run are pairwise separated by more than the
cooldown. -/
theorem fireTimes_pairwise : ∀ (l : List CtrlAct) (c : Controller),
    List.Pairwise (fun a b => b - a > fire_cooldown) (fireTimes c l) := by
  intro l
  induction l with
  | nil => intro c; simp [fireTimes]
  | cons a rest ih =>
      intro c
      simp only [fireTimes]
      by_cases hne : (runAction c a).1.last_fire_time ≠ c.last_fire_time
      · rw [if_pos hne, List.singleton_append]
        refine List.Pairwise.cons ?_ (ih _)
        intro t ht
        exact fireTimes_gt rest (runAction c a).1 t ht
      · rw [if_neg hne, List.nil_append]
        exact ih _

/-- C1: in connected AUTO mode with a target detected, the fire sequence
is started (its engage command `MOVE:PWM3=0` is sent) and `last_fire_time`
is set to `now` iff `sound_detected` and `proximity_alert` both hold and
`now - last_fire_time > fire_cooldown`; otherwise `last_fire_time` is
unchanged and no fire command is sent.  Consequently the fire times of any
run are pairwise more than `fire_cooldown` (2 s) apart: at most one fire
pulse starts within any cooldown window. -/
theorem c1_fire_trigger (c : Controller) (r : SensorReading) (now : ℚ)
    (resp : String → String)
    (h_auto : c.cb.auto_mode = true) (h_conn : c.cb.is_connected = true)
    (h_det : r.distance > 0 ∧ r.distance < 100) :
    ((r.sound_detected && r.proximity_alert) = true ∧
        now - c.last_fire_time > fire_cooldown →
      (auto_track_and_fire c r now resp).1.last_fire_time = now ∧
      Event.cmd "MOVE:PWM3=0" ∈ (auto_track_and_fire c r now resp).2) ∧
    (¬((r.sound_detected && r.proximity_alert) = true ∧
        now - c.last_fire_time > fire_cooldown) →
      (auto_track_and_fire c r now resp).1.last_fire_time = c.last_fire_time ∧
      Event.cmd "MOVE:PWM3=0" ∉ (auto_track_and_fire c r now resp).2) ∧
    (∀ (c0 : Controller) (l : List CtrlAct),
      List.Pairwise (fun a b => b - a > fire_cooldown) (fireTimes c0 l)) := by
  have hne : ∀ x : String, ¬("MOVE:PWM3=0" = "MOVE:PWM2=" ++ x) :=
    fun x h => pwm2_cmd_ne x "MOVE:PWM3=0" (by decide) h.symm
  refine ⟨?_, ?_, fun c0 l => fireTimes_pairwise l c0⟩
  · rintro ⟨hS, hF⟩
    rw [tick_unfold]
    by_cases hM : 3 < |c.current_tilt - target_tilt r.distance| <;>
      by_cases hOK : strContains (resp "MOVE:PWM3=0") "OK" = true <;>
        simp [h_auto, h_det, hM, hS, hF,
          fire_water_eq c.cb resp _ h_auto h_conn, hOK]
  · intro hN
    rw [tick_unfold]
    by_cases hS : (r.sound_detected && r.proximity_alert) = true
    · have hF : ¬now - c.last_fire_time > fire_cooldown := fun h => hN ⟨hS, h⟩
      by_cases hM : 3 < |c.current_tilt - target_tilt r.distance| <;>
        simp [h_auto, h_det, hM, hS, hF,
          move_turret_pwm2 c.cb resp _ h_auto h_conn, hne]
    · by_cases hM : 3 < |c.current_tilt - target_tilt r.distance| <;>
        simp [h_auto, h_det, hM, hS,
          move_turret_pwm2 c.cb resp _ h_auto h_conn, hne]

/-- C1 witness: a qualifying reading after an elapsed cooldown fires and
stamps `last_fire_time`. -/
theorem c1_fire_trigger_w :
    (auto_track_and_fire ⟨⟨true, true⟩, 90, false, 0⟩
        ⟨1, 15, 50, 500, true, true, 0⟩ 10 (fun _ => "OK")).1.last_fire_time = 10 ∧
    Event.cmd "MOVE:PWM3=0" ∈
      (auto_track_and_fire ⟨⟨true, true⟩, 90, false, 0⟩
        ⟨1, 15, 50, 500, true, true, 0⟩ 10 (fun _ => "OK")).2 :=
  (c1_fire_trigger ⟨⟨true, true⟩, 90, false, 0⟩ ⟨1, 15, 50, 500, true, true, 0⟩
    10 (fun _ => "OK") rfl rfl (by norm_num)).1
    ⟨rfl, by norm_num [fire_cooldown]⟩

/-- One smoothing step from an invariant tilt toward a band target stays
inside the invariant, and the clamp is the identity on it. -/
theorem step_inv (cur tt : Int) (h1 : 81 ≤ cur) (h2 : cur ≤ 99)
    (h3 : (3 : Int) ∣ cur) (htt : tt = 80 ∨ tt = 90 ∨ tt = 100)
    (hM : 3 < |cur - tt|) :
    81 ≤ max 70 (min 110 (cur + (if tt > cur then 3 else -3))) ∧
    max 70 (min 110 (cur + (if tt > cur then 3 else -3))) ≤ 99 ∧
    (3 : Int) ∣ max 70 (min 110 (cur + (if tt > cur then 3 else -3))) := by
  have habs := lt_abs.mp hM
  by_cases hdir : tt > cur
  · rw [if_pos hdir, clamp_id _ (by omega) (by omega)]
    rcases htt with h | h | h <;> subst h <;> rcases habs with ha | ha <;> omega
  · rw [if_neg hdir, clamp_id _ (by omega) (by omega)]
    rcases htt with h | h | h <;> subst h <;> rcases habs with ha | ha <;> omega

/-- The event trace of `enable_auto_mode` is that of its single
`MODE:AUTO` send. -/
theorem enable_auto_trace (cb : CyberBrick) (resp : String → String) :
    (enable_auto_mode cb resp).2.2 = (send_command cb resp "MODE:AUTO").2 := by
  simp only [enable_auto_mode]
  split <;> rfl

/-- The event trace of `enable_manual_mode` is that of its single
`MODE:MANUAL` send. -/
theorem enable_manual_trace (cb : CyberBrick) (resp : String → String) :
    (enable_manual_mode cb resp).2.2 = (send_command cb resp "MODE:MANUAL").2 := by
  simp only [enable_manual_mode]
  split <;> rfl

/-- A send writes either nothing (not connected) or exactly its command. -/
theorem send_trace_cases (cb : CyberBrick) (resp : String → String) (c : String) :
    (send_command cb resp c).2 = [] ∨
    (send_command cb resp c).2 = [Event.cmd c] := by
  unfold send_command
  split
  · exact Or.inr rfl
  · exact Or.inl rfl

/-- A tilt-only `move_turret` call writes nothing or exactly one
`MOVE:PWM2=…` command with the requested tilt. -/
theorem move_pwm2_trace (cb : CyberBrick) (resp : String → String) (t : Int) :
    (move_turret cb resp none (some t) none).2 = [] ∨
    (move_turret cb resp none (some t) none).2 =
      [Event.cmd ("MOVE:PWM2=" ++ toString t)] := by
  by_cases hA : cb.auto_mode = false
  · left
    simp [move_turret, hA]
  by_cases hC : cb.is_connected = true
  · right
    have hA' : cb.auto_mode = true := by
      cases hq : cb.auto_mode
      · exact absurd hq hA
      · rfl
    rw [move_turret_pwm2 cb resp t hA' hC]
  · left
    simp [move_turret, send_command, hA, hC]

/-- Every event of the fire sequence is one of its two `MOVE:PWM3` sends
or the dwell. -/
theorem fire_trace_sub (cb : CyberBrick) (resp : String → String) (dur : ℚ) :
    ∀ e ∈ (fire_water cb resp dur).2,
      e = Event.cmd "MOVE:PWM3=0" ∨ e = Event.cmd "MOVE:PWM3=20" ∨
      e = Event.sleep dur := by
  by_cases hA : cb.auto_mode = false
  · simp [fire_water, hA]
  by_cases hC : cb.is_connected = true
  · have hA' : cb.auto_mode = true := by
      cases hq : cb.auto_mode
      · exact absurd hq hA
      · rfl
    rw [fire_water_eq cb resp dur hA' hC]
    by_cases hOK : strContains (resp "MOVE:PWM3=0") "OK" = true <;> simp [hOK]
  · have hf : strContains "" "OK" = false := rfl
    simp [fire_water, move_turret, send_command, hA, hC, hf]

/-- Every event a tick emits is the smoothing aim command (only when the
smoothing condition held), the recentering aim command, one of the two
fire commands, or a dwell. -/
theorem tick_trace_events (c : Controller) (r : SensorReading) (now : ℚ)
    (resp : String → String) :
    ∀ e ∈ (auto_track_and_fire c r now resp).2,
      (3 < |c.current_tilt - target_tilt r.distance| ∧
        e = Event.cmd ("MOVE:PWM2=" ++ toString (max 70 (min 110 (c.current_tilt +
          (if target_tilt r.distance > c.current_tilt then 3 else -3)))))) ∨
      e = Event.cmd ("MOVE:PWM2=" ++ toString (90 : Int)) ∨
      e = Event.cmd "MOVE:PWM3=0" ∨ e = Event.cmd "MOVE:PWM3=20" ∨
      (∃ q : ℚ, e = Event.sleep q) := by
  intro e he
  rw [tick_unfold] at he
  by_cases hA : c.cb.auto_mode = false
  · simp [hA] at he
  by_cases hD : r.distance > 0 ∧ r.distance < 100
  · by_cases hM : 3 < |c.current_tilt - target_tilt r.distance|
    · by_cases hS : (r.sound_detected && r.proximity_alert) = true
      · by_cases hF : now - c.last_fire_time > fire_cooldown
        · simp [hA, hD, hM, hS, hF] at he
          rcases he with h | h
          · rcases move_pwm2_trace c.cb resp _ with ht | ht <;> rw [ht] at h
            · exact absurd h (List.not_mem_nil _)
            · rw [List.mem_singleton] at h
              exact Or.inl ⟨hM, h⟩
          · rcases fire_trace_sub c.cb resp _ e h with h1 | h1 | h1
            · exact Or.inr (Or.inr (Or.inl h1))
            · exact Or.inr (Or.inr (Or.inr (Or.inl h1)))
            · exact Or.inr (Or.inr (Or.inr (Or.inr ⟨_, h1⟩)))
        · simp [hA, hD, hM, hS, hF] at he
          rcases move_pwm2_trace c.cb resp _ with ht | ht <;> rw [ht] at he
          · exact absurd he (List.not_mem_nil _)
          · rw [List.mem_singleton] at he
            exact Or.inl ⟨hM, he⟩
      · simp [hA, hD, hM, hS] at he
        rcases move_pwm2_trace c.cb resp _ with ht | ht <;> rw [ht] at he
        · exact absurd he (List.not_mem_nil _)
        · rw [List.mem_singleton] at he
          exact Or.inl ⟨hM, he⟩
    · by_cases hS : (r.sound_detected && r.proximity_alert) = true
      · by_cases hF : now - c.last_fire_time > fire_cooldown
        · simp [hA, hD, hM, hS, hF] at he
          rcases fire_trace_sub c.cb resp _ e he with h1 | h1 | h1
          · exact Or.inr (Or.inr (Or.inl h1))
          · exact Or.inr (Or.inr (Or.inr (Or.inl h1)))
          · exact Or.inr (Or.inr (Or.inr (Or.inr ⟨_, h1⟩)))
        · simp [hA, hD, hM, hS, hF] at he
      · simp [hA, hD, hM, hS] at he
  · by_cases hT : c.current_tilt = 90
    · simp [hA, hD, hT] at he
    · simp [hA, hD, hT] at he
      rcases move_pwm2_trace c.cb resp 90 with ht | ht <;> rw [ht] at he
      · exact absurd he (List.not_mem_nil _)
      · rw [List.mem_singleton] at he
        exact Or.inr (Or.inl he)

/-- A tick preserves the reachable-tilt invariant. -/
theorem tiltInv_tick (c : Controller) (r : SensorReading) (now : ℚ)
    (resp : String → String) (h : tiltInv c) :
    tiltInv (auto_track_and_fire c r now resp).1 := by
  obtain ⟨h1, h2, h3⟩ := h
  unfold tiltInv
  rw [tick_unfold]
  by_cases hA : c.cb.auto_mode = false
  · simp only [if_pos hA]
    exact ⟨h1, h2, h3⟩
  by_cases hD : r.distance > 0 ∧ r.distance < 100
  · by_cases hM : 3 < |c.current_tilt - target_tilt r.distance|
    · by_cases hS : (r.sound_detected && r.proximity_alert) = true <;>
        by_cases hF : now - c.last_fire_time > fire_cooldown <;>
          simp [hA, hD, hM, hS, hF] <;>
            rcases target_tilt_cases r.distance with h | h | h <;>
              rw [h] at hM ⊢ <;>
                rcases lt_abs.mp hM with ha | ha <;>
                  simp only [sup_eq_max, inf_eq_min, max_def, min_def] <;>
                    split_ifs <;> omega
    · by_cases hS : (r.sound_detected && r.proximity_alert) = true <;>
        by_cases hF : now - c.last_fire_time > fire_cooldown <;>
          simp [hA, hD, hM, hS, hF] <;> exact ⟨h1, h2, h3⟩
  · by_cases hT : c.current_tilt = 90
    · simp [hA, hD, hT]
      omega
    · simp [hA, hD, hT]
      omega

/-- Any single action preserves the reachable-tilt invariant. -/
theorem tiltInv_runAction (c : Controller) (a : CtrlAct) (h : tiltInv c) :
    tiltInv (runAction c a).1 := by
  cases a with
  | connect => exact h
  | modeAuto resp => exact h
  | modeManual resp => exact h
  | tick r now resp => exact tiltInv_tick c r now resp h

/-- Any run preserves the reachable-tilt invariant. -/
theorem tiltInv_run : ∀ (l : List CtrlAct) (c : Controller), tiltInv c →
    tiltInv (runActions c l).1 := by
  intro l
  induction l with
  | nil => intro c h; exact h
  | cons a rest ih => intro c h; exact ih _ (tiltInv_runAction c a h)

/-- From an invariant state, every aim command a single action emits
carries a tilt value inside the invariant. -/
theorem runAction_trace_aim (c : Controller) (a : CtrlAct) (h : tiltInv c) :
    ∀ e ∈ (runAction c a).2, ∀ s : String,
      e = Event.cmd ("MOVE:PWM2=" ++ s) →
      ∃ v : Int, 81 ≤ v ∧ v ≤ 99 ∧ (3 : Int) ∣ v ∧
        e = Event.cmd ("MOVE:PWM2=" ++ toString v) := by
  obtain ⟨h1, h2, h3⟩ := h
  cases a with
  | connect => intro e he; exact absurd he (List.not_mem_nil _)
  | modeAuto resp =>
      intro e he s hs
      exfalso
      have htr : (runAction c (CtrlAct.modeAuto resp)).2 =
          (send_command c.cb resp "MODE:AUTO").2 := enable_auto_trace c.cb resp
      rw [htr] at he
      rcases send_trace_cases c.cb resp "MODE:AUTO" with ht | ht <;> rw [ht] at he
      · exact absurd he (List.not_mem_nil _)
      · rw [List.mem_singleton] at he
        rw [he] at hs
        exact pwm2_cmd_ne s "MODE:AUTO" (by decide) (Event.cmd.inj hs).symm
  | modeManual resp =>
      intro e he s hs
      exfalso
      have htr : (runAction c (CtrlAct.modeManual resp)).2 =
          (send_command c.cb resp "MODE:MANUAL").2 := enable_manual_trace c.cb resp
      rw [htr] at he
      rcases send_trace_cases c.cb resp "MODE:MANUAL" with ht | ht <;> rw [ht] at he
      · exact absurd he (List.not_mem_nil _)
      · rw [List.mem_singleton] at he
        rw [he] at hs
        exact pwm2_cmd_ne s "MODE:MANUAL" (by decide) (Event.cmd.inj hs).symm
  | tick r now resp =>
      intro e he s hs
      rcases tick_trace_events c r now resp e he with ⟨hM, h4⟩ | h4 | h4 | h4 | ⟨q, h4⟩
      · obtain ⟨g1, g2, g3⟩ := step_inv c.current_tilt (target_tilt r.distance)
          h1 h2 h3 (target_tilt_cases r.distance) hM
        exact ⟨_, g1, g2, g3, h4⟩
      · exact ⟨90, by norm_num, by norm_num, by norm_num, h4⟩
      · rw [h4] at hs
        exact absurd (Event.cmd.inj hs).symm (pwm2_cmd_ne s "MOVE:PWM3=0" (by decide))
      · rw [h4] at hs
        exact absurd (Event.cmd.inj hs).symm (pwm2_cmd_ne s "MOVE:PWM3=20" (by decide))
      · rw [h4] at hs
        exact Event.noConfusion hs

/-- From an invariant state, every aim command a whole run emits carries a
tilt value inside the invariant. -/
theorem runActions_trace_aim : ∀ (l : List CtrlAct) (c : Controller), tiltInv c →
    ∀ e ∈ (runActions c l).2, ∀ s : String,
      e = Event.cmd ("MOVE:PWM2=" ++ s) →
      ∃ v : Int, 81 ≤ v ∧ v ≤ 99 ∧ (3 : Int) ∣ v ∧
        e = Event.cmd ("MOVE:PWM2=" ++ toString v) := by
  intro l
  induction l with
  | nil => intro c h e he; exact absurd he (List.not_mem_nil _)
  | cons a rest ih =>
      intro c h e he s hs
      simp only [runActions] at he
      rcases List.mem_append.1 he with h1 | h1
      · exact runAction_trace_aim c a h e h1 s hs
      · exact ih (runAction c a).1 (tiltInv_runAction c a h) e h1 s hs

/-- In AUTO mode with a detected target and the smoothing condition met,
the new tilt is the clamped step. -/
theorem tick_tilt_move (c : Controller) (r : SensorReading) (now : ℚ)
    (resp : String → String) (h_auto : c.cb.auto_mode = true)
    (h_det : r.distance > 0 ∧ r.distance < 100)
    (hM : 3 < |c.current_tilt - target_tilt r.distance|) :
    (auto_track_and_fire c r now resp).1.current_tilt =
      max 70 (min 110 (c.current_tilt +
        (if target_tilt r.distance > c.current_tilt then 3 else -3))) := by
  rw [tick_unfold]
  by_cases hS : (r.sound_detected && r.proximity_alert) = true <;>
    by_cases hF : now - c.last_fire_time > fire_cooldown <;>
      simp [h_auto, h_det, hM, hS, hF]

/-- C5: starting from the initial state (tilt 90), after any sequence of
actions with arbitrary sensor readings the tilt stays within `[70, 110]`. -/
theorem c5_tilt_bounds (l : List CtrlAct) :
    70 ≤ (runActions Controller.init l).1.current_tilt ∧
    (runActions Controller.init l).1.current_tilt ≤ 110 := by
  obtain ⟨h1, h2, _⟩ := tiltInv_run l Controller.init ⟨by decide, by decide, by decide⟩
  exact ⟨by omega, by omega⟩

/-- C10: from the initial state, the tilt is always a multiple of 3 inside
`[81, 99]`; every aim command any run emits carries such a tilt value; and
on a smoothing step the `[70,110]` clamp never alters the stepped value. -/
theorem c10_tilt_lattice (l : List CtrlAct) :
    (81 ≤ (runActions Controller.init l).1.current_tilt ∧
      (runActions Controller.init l).1.current_tilt ≤ 99 ∧
      (3 : Int) ∣ (runActions Controller.init l).1.current_tilt) ∧
    (∀ e ∈ (runActions Controller.init l).2, ∀ s : String,
      e = Event.cmd ("MOVE:PWM2=" ++ s) →
      ∃ v : Int, 81 ≤ v ∧ v ≤ 99 ∧ (3 : Int) ∣ v ∧
        e = Event.cmd ("MOVE:PWM2=" ++ toString v)) ∧
    (∀ (r : SensorReading) (now : ℚ) (resp : String → String),
      (runActions Controller.init l).1.cb.auto_mode = true →
      r.distance > 0 ∧ r.distance < 100 →
      3 < |(runActions Controller.init l).1.current_tilt - target_tilt r.distance| →
      (auto_track_and_fire (runActions Controller.init l).1 r now resp).1.current_tilt =
        (runActions Controller.init l).1.current_tilt +
          (if target_tilt r.distance > (runActions Controller.init l).1.current_tilt
            then 3 else -3)) := by
  obtain ⟨h1, h2, h3⟩ :=
    tiltInv_run l Controller.init ⟨by decide, by decide, by decide⟩
  refine ⟨⟨h1, h2, h3⟩, ?_, ?_⟩
  · exact runActions_trace_aim l Controller.init ⟨by decide, by decide, by decide⟩
  · intro r now resp hAuto hDet hM
    rw [tick_tilt_move _ r now resp hAuto hDet hM]
    exact clamp_id _ (by split_ifs <;> omega) (by split_ifs <;> omega)

/-- C10 witness: after connecting and an acknowledged switch to AUTO, a
15 cm reading steps the tilt from 90 by exactly −3 with no clamping. -/
theorem c10_tilt_lattice_w :
    (auto_track_and_fire
        (runActions Controller.init
          [CtrlAct.connect, CtrlAct.modeAuto (fun _ => "AUTO_OK")]).1
        ⟨1, 15, 0, 0, false, false, 0⟩ 5 (fun _ => "OK")).1.current_tilt =
      (runActions Controller.init
          [CtrlAct.connect, CtrlAct.modeAuto (fun _ => "AUTO_OK")]).1.current_tilt +
        (if target_tilt 15 >
            (runActions Controller.init
              [CtrlAct.connect, CtrlAct.modeAuto (fun _ => "AUTO_OK")]).1.current_tilt
          then 3 else -3) :=
  (c10_tilt_lattice
      [CtrlAct.connect, CtrlAct.modeAuto (fun _ => "AUTO_OK")]).2.2
    ⟨1, 15, 0, 0, false, false, 0⟩ 5 (fun _ => "OK") rfl (by norm_num) (by decide)

/-- Subscripting a dict yields the value or a `KeyError`, never a
`TypeError`. -/
theorem subscript_obj (kvs : List (String × PyJson)) (k : String) :
    (PyJson.obj kvs).subscript k = Except.error PyErr.keyError ∨
    ∃ v, (PyJson.obj kvs).subscript k = Except.ok v := by
  cases hl : kvs.lookup k with
  | none => left; simp [PyJson.subscript, hl]
  | some v => right; exact ⟨v, by simp [PyJson.subscript, hl]⟩

/-- Subscripting any non-dict value raises `TypeError`. -/
theorem subscript_nonobj (j : PyJson) (k : String)
    (h : ∀ kvs, j ≠ PyJson.obj kvs) :
    j.subscript k = Except.error PyErr.typeError := by
  cases j
  case obj kvs => exact absurd rfl (h kvs)
  all_goals rfl

/-- Field extraction from a dict either succeeds with all six fields or
raises `KeyError`. -/
theorem fieldsOf_obj (kvs : List (String × PyJson)) (now : ℚ) :
    (∃ r, fieldsOf (PyJson.obj kvs) now = Except.ok r) ∨
    fieldsOf (PyJson.obj kvs) now = Except.error PyErr.keyError := by
  unfold fieldsOf
  rcases subscript_obj kvs "timestamp" with h1 | ⟨v1, h1⟩
  · rw [h1]; right; rfl
  rw [h1]
  rcases subscript_obj kvs "distance" with h2 | ⟨v2, h2⟩
  · rw [h2]; right; rfl
  rw [h2]
  rcases subscript_obj kvs "sound_level" with h3 | ⟨v3, h3⟩
  · rw [h3]; right; rfl
  rw [h3]
  rcases subscript_obj kvs "sound_raw" with h4 | ⟨v4, h4⟩
  · rw [h4]; right; rfl
  rw [h4]
  rcases subscript_obj kvs "sound_detected" with h5 | ⟨v5, h5⟩
  · rw [h5]; right; rfl
  rw [h5]
  rcases subscript_obj kvs "proximity_alert" with h6 | ⟨v6, h6⟩
  · rw [h6]; right; rfl
  rw [h6]
  left
  exact ⟨_, rfl⟩

/-- Field extraction from a non-dict value raises `TypeError` at the first
subscript. -/
theorem fieldsOf_nonobj (j : PyJson) (now : ℚ)
    (h : ∀ kvs, j ≠ PyJson.obj kvs) :
    fieldsOf j now = Except.error PyErr.typeError := by
  unfold fieldsOf
  rw [subscript_nonobj j "timestamp" h]

/-- C6 (amended): the decoder yields a fully populated reading or no
reading, and raises nothing, whenever the `DATA:` payload fails to parse
or parses to a JSON object (a missing field drops the line); but a payload
that parses to a non-object JSON value raises an uncaught `TypeError` — an
error escapes exactly in that case. -/
theorem c6_decode_total (line : String) (parsed : Option PyJson) (now : ℚ) :
    (parsed = none → parse_data_line line parsed now = Except.ok none) ∧
    (∀ kvs, parsed = some (PyJson.obj kvs) →
      (∃ r, parse_data_line line parsed now = Except.ok (some r)) ∨
      parse_data_line line parsed now = Except.ok none) ∧
    (∀ e, parse_data_line line parsed now = Except.error e →
      e = PyErr.typeError ∧
      ∃ j, parsed = some j ∧ ∀ kvs, j ≠ PyJson.obj kvs) := by
  refine ⟨?_, ?_, ?_⟩
  · rintro rfl
    unfold parse_data_line
    split <;> rfl
  · rintro kvs rfl
    unfold parse_data_line
    split
    · dsimp only
      rcases fieldsOf_obj kvs now with ⟨r, h⟩ | h
      · left
        exact ⟨r, by rw [h]⟩
      · right
        rw [h]
    · right
      rfl
  · intro e he
    unfold parse_data_line at he
    split at he
    · cases parsed with
      | none =>
          exact absurd (show (Except.ok none : Except PyErr (Option RawReading)) =
            Except.error e from he) (by simp)
      | some j =>
          dsimp only at he
          by_cases hobj : ∀ kvs, j ≠ PyJson.obj kvs
          · rw [fieldsOf_nonobj j now hobj] at he
            have he' : (Except.error PyErr.typeError :
                Except PyErr (Option RawReading)) = Except.error e := he
            have : PyErr.typeError = e := by
              injection he'
            exact ⟨this.symm, j, rfl, hobj⟩
          · push_neg at hobj
            obtain ⟨kvs, hk⟩ := hobj
            subst hk
            rcases fieldsOf_obj kvs now with ⟨r, h⟩ | h <;> rw [h] at he
            · exact absurd (show (Except.ok (some r) : Except PyErr (Option RawReading)) =
                Except.error e from he) (by simp)
            · exact absurd (show (Except.ok none : Except PyErr (Option RawReading)) =
                Except.error e from he) (by simp)
    · exact absurd (show (Except.ok none : Except PyErr (Option RawReading)) =
        Except.error e from he) (by simp)

/-- C6 counterexample: `DATA:3` has a parsable JSON payload (the number
`3`), yet the decoder raises an uncaught `TypeError` instead of returning
no reading — refuting the claim that decode never raises. -/
theorem c6_decode_cex :
    parse_data_line "DATA:3" (some (PyJson.num 3)) 0 =
      Except.error PyErr.typeError := rfl

/-- C6 witness: an unparsable payload yields no reading and no error. -/
theorem c6_decode_total_w :
    parse_data_line "DATA:junk" none 0 = Except.ok none :=
  (c6_decode_total "DATA:junk" none 0).1 rfl
